import Mathlib

/-!
Shallow embedding of `bindings/python/sphinx/conf.py` from libgpiod.

The script runs three shell commands via `subprocess.run` (whose results it
never inspects), imports the freshly built `gpiod` module, reads two
environment variables, resolves a documentation version string, and assigns a
sequence of module-scope configuration variables.

The embedding models one execution of the script as a function from an
abstract process environment (the OS environment variables, the importability
and version attribute of the built `gpiod` module, and the exit statuses the
three shell commands would return) to a `RunResult`: the list of completed
subprocess invocations, the ordered trace of module-scope variable
assignments the script performed, and the unhandled exception, if any, that
aborted it.
-/

namespace LibgpiodSphinxConf

/-- Result record of a Python `subprocess.run` call: the command string and
the exit status of the spawned shell.  With `check` left at its default of
`False` (as in conf.py), `subprocess.run` returns this record and never
raises on a non-zero exit status. -/
structure CompletedProcess where
  args : String
  returncode : Int
deriving DecidableEq, Repr

/-- Model of `subprocess.run(cmd, shell=True)` as it appears in conf.py:
a total function, so a non-zero exit status cannot raise. -/
def subprocessRun (cmd : String) (exitStatus : Int) : CompletedProcess :=
  { args := cmd, returncode := exitStatus }

/-- The first shell command of conf.py (line 15): native build. -/
def buildCmd : String := "cd ../../.. ; ./autogen.sh --enable-bindings-python; make"

/-- The second shell command of conf.py (line 17): delete shared libraries. -/
def rmSharedLibsCmd : String := "rm ../../../lib/.libs/libgpiod.so*"

/-- The third shell command of conf.py (line 19): build the extension. -/
def buildExtCmd : String := "cd .. ; python build_ext.py gpiod"

/-- A Python value assigned to a module-scope configuration variable in
conf.py: every assigned value is a string or a list of strings. -/
inductive PyVal where
  | str (s : String)
  | strList (l : List String)
deriving DecidableEq, Repr

/-- An unhandled exception that aborts the loading of conf.py: a `KeyError`
from an `os.environ[...]` lookup, or an `ImportError` from `import gpiod`. -/
inductive ScriptError where
  | keyError (name : String)
  | importError (modName : String)
deriving DecidableEq, Repr

/-- The process environment one execution of conf.py runs in:

* `environ` — the OS environment variables (`os.environ`);
* `gpiod` — `some v` when the built `gpiod` module is importable and its
  `__version__` attribute is the string `v`; `none` when `import gpiod`
  raises;
* `buildExit`, `rmExit`, `extExit` — the exit statuses the three shell
  commands return in this environment. -/
structure PyEnv where
  environ : String → Option String
  gpiod : Option String
  buildExit : Int
  rmExit : Int
  extExit : Int

/-- The observable outcome of loading conf.py: the completed subprocess
invocations, the ordered trace of module-scope variable assignments
(variable name paired with assigned value, in program order), and the
unhandled exception that aborted loading, if any. -/
structure RunResult where
  procs : List CompletedProcess
  trace : List (String × PyVal)
  err : Option ScriptError
deriving Repr

/-- One execution of conf.py, statement by statement in source order:

1. `subprocess.run` three times (lines 15, 17, 19) — results ignored;
2. `import gpiod` (line 33) — aborts with `ImportError` if not importable;
3. assignments `project`, `copyright`, `author` (lines 35–37);
4. `language = os.environ["READTHEDOCS_LANGUAGE"]` (line 38) — aborts with
   `KeyError` if absent;
5. `version = os.environ["READTHEDOCS_VERSION"]` (line 39) — likewise;
6. `if version != "latest": import gpiod; version = gpiod.__version__`
   (lines 40–42) — the inner import cannot fail here since line 33 already
   succeeded;
7. `release = version` (line 43) and the declarative assignments
   (lines 50–77). -/
def runConf (env : PyEnv) : RunResult :=
  let procs := [subprocessRun buildCmd env.buildExit,
                subprocessRun rmSharedLibsCmd env.rmExit,
                subprocessRun buildExtCmd env.extExit]
  match env.gpiod with
  | none => { procs := procs, trace := [], err := some (ScriptError.importError "gpiod") }
  | some gpiodVersion =>
    let tr0 : List (String × PyVal) :=
      [("project", PyVal.str "libgpiod"),
       ("copyright", PyVal.str "2022, Bartosz Golaszewski"),
       ("author", PyVal.str "Bartosz Golaszewski")]
    match env.environ "READTHEDOCS_LANGUAGE" with
    | none =>
      { procs := procs, trace := tr0,
        err := some (ScriptError.keyError "READTHEDOCS_LANGUAGE") }
    | some language =>
      let tr1 := tr0 ++ [("language", PyVal.str language)]
      match env.environ "READTHEDOCS_VERSION" with
      | none =>
        { procs := procs, trace := tr1,
          err := some (ScriptError.keyError "READTHEDOCS_VERSION") }
      | some envVersion =>
        let tr2 := tr1 ++ [("version", PyVal.str envVersion)]
        let version := if envVersion ≠ "latest" then gpiodVersion else envVersion
        let tr3 := if envVersion ≠ "latest"
          then tr2 ++ [("version", PyVal.str gpiodVersion)]
          else tr2
        let tr4 := tr3 ++
          [("release", PyVal.str version),
           ("extensions", PyVal.strList ["sphinx.ext.autodoc"]),
           ("templates_path", PyVal.strList ["_templates"]),
           ("exclude_patterns", PyVal.strList []),
           ("html_theme", PyVal.str "sphinx_rtd_theme"),
           ("html_static_path", PyVal.strList ["_static"]),
           ("html_extra_path", PyVal.strList []),
           ("html_css_files", PyVal.strList ["css/custom.css"])]
        { procs := procs, trace := tr4, err := none }

/-- The value left in a variable at the end of the trace: the last value
assigned to `name`, if any. -/
def lastAssign : List (String × PyVal) → String → Option PyVal
  | [], _ => none
  | (k, v) :: rest, name =>
    match lastAssign rest name with
    | some w => some w
    | none => if k = name then some v else none

/-- The assignment trace of one execution of conf.py. -/
def confTrace (env : PyEnv) : List (String × PyVal) := (runConf env).trace

/-- The unhandled exception of one execution of conf.py, if any. -/
def confError (env : PyEnv) : Option ScriptError := (runConf env).err

/-- The resolved `version` variable after one execution of conf.py. -/
def resolvedVersion (env : PyEnv) : Option PyVal :=
  lastAssign (confTrace env) "version"

/-- An `os.environ` holding exactly the two READTHEDOCS variables. -/
def mkEnviron (lang ver : String) : String → Option String :=
  fun name =>
    if name = "READTHEDOCS_LANGUAGE" then some lang
    else if name = "READTHEDOCS_VERSION" then some ver
    else none

/-- Concrete environment: marker "latest", module version "2.3.0". -/
def envLatest : PyEnv := ⟨mkEnviron "en" "latest", some "2.3.0", 0, 0, 0⟩

/-- Concrete environment: tag marker "v2.0", module version "2.3.0". -/
def envTag : PyEnv := ⟨mkEnviron "en" "v2.0", some "2.3.0", 0, 0, 0⟩

/-- Concrete environment: tag marker "v2.0", empty module version string. -/
def envEmptyVer : PyEnv := ⟨mkEnviron "en" "v2.0", some "", 0, 0, 0⟩

/-- Concrete environment with no environment variables set at all. -/
def envNoVars : PyEnv := ⟨fun _ => none, some "2.3.0", 0, 0, 0⟩

/-- Concrete environment: marker "latest" but the gpiod module is not
importable. -/
def envNoGpiod : PyEnv := ⟨mkEnviron "en" "latest", none, 0, 0, 0⟩

/-- C1 counterexample: with READTHEDOCS_VERSION set to "latest" and the built
module reporting version "2.3.0", the script completes but the resolved
version is the string "latest", not the module version "2.3.0": the claim
that the "latest" marker makes version equal the module version is false. -/
theorem conf_latest_marker_not_module_version :
    confError envLatest = none ∧
    resolvedVersion envLatest = some (PyVal.str "latest") ∧
    resolvedVersion envLatest ≠ some (PyVal.str "2.3.0") := by
  refine ⟨by decide, by decide, by decide⟩

/-- C1 (amended): when READTHEDOCS_VERSION equals "latest", the script
completes, the resolved version is the environment value "latest" itself,
and the only value ever assigned to the version variable is "latest" — the
module version attribute is never assigned to it in this branch. -/
theorem conf_latest_marker_keeps_env_value (env : PyEnv) (lang v : String)
    (hl : env.environ "READTHEDOCS_LANGUAGE" = some lang)
    (hv : env.environ "READTHEDOCS_VERSION" = some "latest")
    (hg : env.gpiod = some v) :
    confError env = none ∧
    resolvedVersion env = some (PyVal.str "latest") ∧
    ((confTrace env).filter (fun p => p.1 == "version")).map Prod.snd =
      [PyVal.str "latest"] := by
  simp [confError, resolvedVersion, confTrace, runConf, hl, hv, hg, lastAssign]

/-- C1 witness: the amended statement holds at a concrete environment. -/
theorem conf_latest_marker_keeps_env_value_witness :
    (envLatest.environ "READTHEDOCS_LANGUAGE" = some "en" ∧
     envLatest.environ "READTHEDOCS_VERSION" = some "latest" ∧
     envLatest.gpiod = some "2.3.0") ∧
    (confError envLatest = none ∧
     resolvedVersion envLatest = some (PyVal.str "latest") ∧
     ((confTrace envLatest).filter (fun p => p.1 == "version")).map Prod.snd =
       [PyVal.str "latest"]) :=
  ⟨⟨by decide, by decide, by decide⟩,
   conf_latest_marker_keeps_env_value envLatest "en" "2.3.0"
     (by decide) (by decide) (by decide)⟩

/-- C2 counterexample: with READTHEDOCS_VERSION set to the tag "v2.0" and the
built module reporting "2.3.0", the resolved version is the module version
"2.3.0", not the environment literal "v2.0": the claim that non-"latest"
markers are used verbatim without consulting the module is false. -/
theorem conf_tag_marker_not_verbatim :
    confError envTag = none ∧
    resolvedVersion envTag = some (PyVal.str "2.3.0") ∧
    resolvedVersion envTag ≠ some (PyVal.str "v2.0") := by
  refine ⟨by decide, by decide, by decide⟩

/-- C2 (amended): when READTHEDOCS_VERSION is any literal other than
"latest", the built module IS consulted and both the resolved version and
release equal the module version attribute. -/
theorem conf_tag_marker_uses_module_version (env : PyEnv) (lang v ver0 : String)
    (hl : env.environ "READTHEDOCS_LANGUAGE" = some lang)
    (hv : env.environ "READTHEDOCS_VERSION" = some ver0)
    (hne : ver0 ≠ "latest")
    (hg : env.gpiod = some v) :
    confError env = none ∧
    resolvedVersion env = some (PyVal.str v) ∧
    lastAssign (confTrace env) "release" = some (PyVal.str v) := by
  simp [confError, resolvedVersion, confTrace, runConf, hl, hv, hg, hne, lastAssign]

/-- C2 witness: the amended statement holds at a concrete environment. -/
theorem conf_tag_marker_uses_module_version_witness :
    (envTag.environ "READTHEDOCS_LANGUAGE" = some "en" ∧
     envTag.environ "READTHEDOCS_VERSION" = some "v2.0" ∧
     "v2.0" ≠ "latest" ∧ envTag.gpiod = some "2.3.0") ∧
    (confError envTag = none ∧
     resolvedVersion envTag = some (PyVal.str "2.3.0") ∧
     lastAssign (confTrace envTag) "release" = some (PyVal.str "2.3.0")) :=
  ⟨⟨by decide, by decide, by decide, by decide⟩,
   conf_tag_marker_uses_module_version envTag "en" "2.3.0" "v2.0"
     (by decide) (by decide) (by decide) (by decide)⟩

/-- C3: when READTHEDOCS_VERSION is "latest", the script falls back to the
environment-supplied value: the resolved version equals the value read from
the READTHEDOCS_VERSION environment variable, i.e. the string "latest". -/
theorem conf_latest_falls_back_to_env_value (env : PyEnv) (lang v : String)
    (hl : env.environ "READTHEDOCS_LANGUAGE" = some lang)
    (hv : env.environ "READTHEDOCS_VERSION" = some "latest")
    (hg : env.gpiod = some v) :
    confError env = none ∧ resolvedVersion env = some (PyVal.str "latest") := by
  simp [confError, resolvedVersion, confTrace, runConf, hl, hv, hg, lastAssign]

/-- C3 witness: the fallback holds at a concrete environment. -/
theorem conf_latest_falls_back_to_env_value_witness :
    (envLatest.environ "READTHEDOCS_LANGUAGE" = some "en" ∧
     envLatest.environ "READTHEDOCS_VERSION" = some "latest" ∧
     envLatest.gpiod = some "2.3.0") ∧
    (confError envLatest = none ∧
     resolvedVersion envLatest = some (PyVal.str "latest")) :=
  ⟨⟨by decide, by decide, by decide⟩,
   conf_latest_falls_back_to_env_value envLatest "en" "2.3.0"
     (by decide) (by decide) (by decide)⟩

/-- C4: if READTHEDOCS_LANGUAGE or READTHEDOCS_VERSION is absent from the
environment (the built module being importable, so that the earlier import
does not abort first), loading aborts with an unhandled KeyError, and no
configuration variable past the failing lookup — version, release, or any of
the later declarative settings such as html_theme — is ever assigned. -/
theorem conf_missing_env_var_aborts (env : PyEnv) (v : String)
    (hg : env.gpiod = some v)
    (h : env.environ "READTHEDOCS_LANGUAGE" = none ∨
         env.environ "READTHEDOCS_VERSION" = none) :
    (∃ name, confError env = some (ScriptError.keyError name)) ∧
    lastAssign (confTrace env) "version" = none ∧
    lastAssign (confTrace env) "release" = none ∧
    lastAssign (confTrace env) "html_theme" = none := by
  rcases h with h | h
  · simp [confError, confTrace, runConf, hg, h, lastAssign]
  · cases hL : env.environ "READTHEDOCS_LANGUAGE" with
    | none => simp [confError, confTrace, runConf, hg, hL, lastAssign]
    | some l => simp [confError, confTrace, runConf, hg, hL, h, lastAssign]

/-- C4 witness: the abort happens at a concrete variable-free environment. -/
theorem conf_missing_env_var_aborts_witness :
    (envNoVars.gpiod = some "2.3.0" ∧
     (envNoVars.environ "READTHEDOCS_LANGUAGE" = none ∨
      envNoVars.environ "READTHEDOCS_VERSION" = none)) ∧
    ((∃ name, confError envNoVars = some (ScriptError.keyError name)) ∧
     lastAssign (confTrace envNoVars) "version" = none ∧
     lastAssign (confTrace envNoVars) "release" = none ∧
     lastAssign (confTrace envNoVars) "html_theme" = none) :=
  ⟨⟨by decide, Or.inl (by decide)⟩,
   conf_missing_env_var_aborts envNoVars "2.3.0" (by decide) (Or.inl (by decide))⟩

/-- C5: the shared-library deletion step cannot raise: `subprocess.run` on
the rm command returns a completed-process record for every exit status, and
the outcome of the script — both its error and its assignment trace — is the
same whatever exit status the rm command returns (in particular the non-zero
status produced when no file matches the glob). -/
theorem conf_rm_no_match_does_not_raise (environ : String → Option String)
    (g : Option String) (b e rc : Int) :
    subprocessRun rmSharedLibsCmd rc = ⟨rmSharedLibsCmd, rc⟩ ∧
    (runConf ⟨environ, g, b, rc, e⟩).err = (runConf ⟨environ, g, b, 0, e⟩).err ∧
    (runConf ⟨environ, g, b, rc, e⟩).trace = (runConf ⟨environ, g, b, 0, e⟩).trace := by
  refine ⟨rfl, ?_⟩
  cases g with
  | none => exact ⟨rfl, rfl⟩
  | some v =>
    cases hL : environ "READTHEDOCS_LANGUAGE" with
    | none => simp [runConf, hL]
    | some l =>
      cases hV : environ "READTHEDOCS_VERSION" with
      | none => simp [runConf, hL, hV]
      | some ver => simp [runConf, hL, hV]

/-- C6: every one of the three shell invocations has its exit status silently
ignored: the script records the three completed processes with whatever exit
statuses they return, and its error and assignment trace are identical to
those of a run in which all three commands exit with status zero. -/
theorem conf_subprocess_failures_ignored (environ : String → Option String)
    (g : Option String) (b r e : Int) :
    (runConf ⟨environ, g, b, r, e⟩).procs =
      [⟨buildCmd, b⟩, ⟨rmSharedLibsCmd, r⟩, ⟨buildExtCmd, e⟩] ∧
    (runConf ⟨environ, g, b, r, e⟩).err = (runConf ⟨environ, g, 0, 0, 0⟩).err ∧
    (runConf ⟨environ, g, b, r, e⟩).trace = (runConf ⟨environ, g, 0, 0, 0⟩).trace := by
  cases g with
  | none => exact ⟨rfl, rfl, rfl⟩
  | some v =>
    cases hL : environ "READTHEDOCS_LANGUAGE" with
    | none => simp [runConf, hL, subprocessRun]
    | some l =>
      cases hV : environ "READTHEDOCS_VERSION" with
      | none => simp [runConf, hL, hV, subprocessRun]
      | some ver => simp [runConf, hL, hV, subprocessRun]

/-- C7 counterexample: with both environment variables set and the module
importable whose version attribute is the empty string, the script completes
without raising but the resolved version is the empty string: the claim that
the resolved version is always non-empty is false. -/
theorem conf_empty_module_version_not_nonempty :
    confError envEmptyVer = none ∧
    resolvedVersion envEmptyVer = some (PyVal.str "") := by
  refine ⟨by decide, by decide⟩

/-- C7 (amended): when both environment variables are set and the module is
importable with a non-empty version attribute, the script completes without
raising and the resolved version is a non-empty string. -/
theorem conf_completes_with_nonempty_version (env : PyEnv) (lang v ver0 : String)
    (hl : env.environ "READTHEDOCS_LANGUAGE" = some lang)
    (hv : env.environ "READTHEDOCS_VERSION" = some ver0)
    (hg : env.gpiod = some v) (hvne : v ≠ "") :
    confError env = none ∧
    ∃ s, resolvedVersion env = some (PyVal.str s) ∧ s ≠ "" := by
  by_cases h : ver0 = "latest"
  · subst h
    refine ⟨?_, "latest", ?_, by decide⟩ <;>
      simp [confError, resolvedVersion, confTrace, runConf, hl, hv, hg, lastAssign]
  · refine ⟨?_, v, ?_, hvne⟩ <;>
      simp [confError, resolvedVersion, confTrace, runConf, hl, hv, hg, h, lastAssign]

/-- C7 witness: the amended statement holds at a concrete environment. -/
theorem conf_completes_with_nonempty_version_witness :
    (envTag.environ "READTHEDOCS_LANGUAGE" = some "en" ∧
     envTag.environ "READTHEDOCS_VERSION" = some "v2.0" ∧
     envTag.gpiod = some "2.3.0" ∧ "2.3.0" ≠ "") ∧
    (confError envTag = none ∧
     ∃ s, resolvedVersion envTag = some (PyVal.str s) ∧ s ≠ "") :=
  ⟨⟨by decide, by decide, by decide, by decide⟩,
   conf_completes_with_nonempty_version envTag "en" "2.3.0" "v2.0"
     (by decide) (by decide) (by decide) (by decide)⟩

/-- C8 counterexample: with the tag marker "v2.0" and module version "2.3.0",
the version variable is assigned twice, first the environment value "v2.0"
and then the different value "2.3.0": the claim that no variable is ever
reassigned to a different value is false. -/
theorem conf_version_reassigned :
    ((confTrace envTag).filter (fun p => p.1 == "version")).map Prod.snd =
      [PyVal.str "v2.0", PyVal.str "2.3.0"] ∧
    PyVal.str "v2.0" ≠ PyVal.str "2.3.0" := by
  refine ⟨by decide, by decide⟩

/-- C8 (amended): in a completing run, the sequence of assigned variable
names is fixed: every variable other than version appears exactly once (the
non-version names form a duplicate-free list), while version is assigned
twice when the marker differs from "latest" and once when it equals
"latest". -/
theorem conf_assignment_names (env : PyEnv) (lang v ver0 : String)
    (hl : env.environ "READTHEDOCS_LANGUAGE" = some lang)
    (hv : env.environ "READTHEDOCS_VERSION" = some ver0)
    (hg : env.gpiod = some v) :
    (confTrace env).map Prod.fst =
      (if ver0 = "latest"
       then ["project", "copyright", "author", "language", "version",
             "release", "extensions", "templates_path", "exclude_patterns",
             "html_theme", "html_static_path", "html_extra_path", "html_css_files"]
       else ["project", "copyright", "author", "language", "version", "version",
             "release", "extensions", "templates_path", "exclude_patterns",
             "html_theme", "html_static_path", "html_extra_path", "html_css_files"]) ∧
    (((confTrace env).map Prod.fst).filter (fun n => n ≠ "version")).Nodup := by
  have hk : (confTrace env).map Prod.fst =
      (if ver0 = "latest"
       then ["project", "copyright", "author", "language", "version",
             "release", "extensions", "templates_path", "exclude_patterns",
             "html_theme", "html_static_path", "html_extra_path", "html_css_files"]
       else ["project", "copyright", "author", "language", "version", "version",
             "release", "extensions", "templates_path", "exclude_patterns",
             "html_theme", "html_static_path", "html_extra_path", "html_css_files"]) := by
    by_cases h : ver0 = "latest" <;> simp [confTrace, runConf, hl, hv, hg, h]
  refine ⟨hk, ?_⟩
  rw [hk]
  by_cases h : ver0 = "latest"
  · rw [if_pos h]; decide
  · rw [if_neg h]; decide

/-- C8 witness: the amended statement holds at a concrete environment. -/
theorem conf_assignment_names_witness :
    (envTag.environ "READTHEDOCS_LANGUAGE" = some "en" ∧
     envTag.environ "READTHEDOCS_VERSION" = some "v2.0" ∧
     envTag.gpiod = some "2.3.0") ∧
    ((confTrace envTag).map Prod.fst =
      (if "v2.0" = "latest"
       then ["project", "copyright", "author", "language", "version",
             "release", "extensions", "templates_path", "exclude_patterns",
             "html_theme", "html_static_path", "html_extra_path", "html_css_files"]
       else ["project", "copyright", "author", "language", "version", "version",
             "release", "extensions", "templates_path", "exclude_patterns",
             "html_theme", "html_static_path", "html_extra_path", "html_css_files"]) ∧
     (((confTrace envTag).map Prod.fst).filter (fun n => n ≠ "version")).Nodup) :=
  ⟨⟨by decide, by decide, by decide⟩,
   conf_assignment_names envTag "en" "2.3.0" "v2.0" (by decide) (by decide) (by decide)⟩

/-- C9: the gpiod module is imported before either environment variable is
examined: whenever the import fails, the script aborts with an unhandled
ImportError and assigns no configuration variable, regardless of the
environment variables — in particular even when READTHEDOCS_VERSION is
"latest" and the version attribute would never have been consulted. -/
theorem conf_import_precedes_marker_check (env : PyEnv)
    (hg : env.gpiod = none) :
    confError env = some (ScriptError.importError "gpiod") ∧
    confTrace env = [] := by
  rcases env with ⟨environ, g, b, r, e⟩
  cases hg
  simp [confError, confTrace, runConf]

/-- C9 witness: the import abort happens at a concrete environment whose
marker is "latest". -/
theorem conf_import_precedes_marker_check_witness :
    (envNoGpiod.gpiod = none ∧
     envNoGpiod.environ "READTHEDOCS_VERSION" = some "latest") ∧
    (confError envNoGpiod = some (ScriptError.importError "gpiod") ∧
     confTrace envNoGpiod = []) :=
  ⟨⟨by decide, by decide⟩, conf_import_precedes_marker_check envNoGpiod (by decide)⟩

/-- C10: in every execution that completes without an unhandled exception,
the release variable holds exactly the resolved version value, in both
branches of version resolution, and that value exists. -/
theorem conf_release_equals_version (env : PyEnv)
    (h : confError env = none) :
    lastAssign (confTrace env) "release" = resolvedVersion env ∧
    (resolvedVersion env).isSome := by
  rcases env with ⟨environ, g, b, r, e⟩
  cases g with
  | none => simp [confError, runConf] at h
  | some v =>
    cases hL : environ "READTHEDOCS_LANGUAGE" with
    | none => simp [confError, runConf, hL] at h
    | some l =>
      cases hV : environ "READTHEDOCS_VERSION" with
      | none => simp [confError, runConf, hL, hV] at h
      | some ver =>
        by_cases hlat : ver = "latest" <;>
          simp [resolvedVersion, confTrace, runConf, hL, hV, hlat, lastAssign]

/-- C10 witness: release equals the resolved version at a concrete
environment. -/
theorem conf_release_equals_version_witness :
    confError envLatest = none ∧
    (lastAssign (confTrace envLatest) "release" = resolvedVersion envLatest ∧
     (resolvedVersion envLatest).isSome) :=
  ⟨by decide, conf_release_equals_version envLatest (by decide)⟩

end LibgpiodSphinxConf
